import Mathlib

/-! knockknock: supervisor loop, role bootstrap and IPC handlers

A shallow embedding of `supervisor/run.go`, `ipc/server.go` and `ipc/client.go`.

* `Supervisor.Run` is an endless loop around blocking system calls.  One loop
  iteration is split along its two blocking points (`cmd.Start`, `cmd.Wait`) into
  pure functions over the local variable `crashCount`; the results of the system
  calls (does the ticker channel hold a tick, what does `cmd.Wait` return, does
  `s.Rollback` return an error) are inputs.
* The standard-library pieces the loop relies on (`syscall.WaitStatus`,
  `os.Getenv`, the capacity-one channel of `time.Ticker`) are modelled after
  their Go definitions for Linux.
-/

namespace Knockknock

/-! ## `syscall.WaitStatus` (Go standard library, Linux) -/

/-- The Go type `syscall.WaitStatus` is a `uint32`. -/
abbrev WaitStatus := Nat

namespace WaitStatus

/-- Go `mask = 0x7F`. -/
def mask : Nat := 0x7F
/-- Go `exited = 0x00`. -/
def exited : Nat := 0x00
/-- Go `stopped = 0x7F`. -/
def stopped : Nat := 0x7F
/-- Go `shift = 8`. -/
def shift : Nat := 8

/-- Go `func (w WaitStatus) Exited() bool { return w&mask == exited }`. -/
def Exited (w : WaitStatus) : Bool := (w &&& mask) == exited

/-- Go `func (w WaitStatus) Signaled() bool { return w&mask != stopped && w&mask != exited }`. -/
def Signaled (w : WaitStatus) : Bool := (w &&& mask) != stopped && (w &&& mask) != exited

/-- Go `ExitStatus`: `-1` unless the process exited, else `int(w>>shift) & 0xFF`. -/
def ExitStatus (w : WaitStatus) : Int :=
  if !Exited w then -1 else (((w >>> shift) &&& 0xFF : Nat) : Int)

end WaitStatus

/-! ## `Supervisor.Run` -/

/-- What `cmd.Wait()` returned (run.go:38-40). -/
inductive WaitResult where
  /-- `err == nil`: the child exited with status 0. -/
  | nil
  /-- `err` is an `*exec.ExitError`; `sys` is `some status` when
  `exitErr.Sys()` is a `syscall.WaitStatus` and `none` when it is not. -/
  | exitError (sys : Option WaitStatus)
  /-- `err` is non-nil and not an `*exec.ExitError`. -/
  | other
  deriving DecidableEq, Repr

/-- The child exited on its own with a non-zero exit code. -/
def WaitResult.nonZeroExit : WaitResult → Bool
  | .exitError (some w) => WaitStatus.Exited w && WaitStatus.ExitStatus w != 0
  | _ => false

/-- The child was killed by a signal. -/
def WaitResult.signalKilled : WaitResult → Bool
  | .exitError (some w) => WaitStatus.Signaled w
  | _ => false

/-- A faulty child exit: non-zero exit code or killed by a signal. -/
def WaitResult.faulty (r : WaitResult) : Bool := r.nonZeroExit || r.signalKilled

/-- The non-blocking `select` on `resetWindow.C` at the top of the loop
(run.go:18-22): a pending tick resets `crashCount`. -/
def selectReset (tickPending : Bool) (crashCount : Int) : Int :=
  if tickPending then 0 else crashCount

/-- The block run.go:35-50: `exitCode := 0`, then the three nested tests on the
error of `cmd.Wait()`.  Returns `(exitCode, crashCount)` as they stand at
line 52. -/
def classify (r : WaitResult) (crashCount : Int) : Int × Int :=
  match r with
  | .nil => (0, crashCount)
  | .other => (0, crashCount)
  | .exitError none => (0, crashCount)
  | .exitError (some status) =>
      let exitCode := WaitStatus.ExitStatus status
      if WaitStatus.Signaled status then (exitCode, crashCount + 1)
      else (exitCode, crashCount)

/-- The lines run.go:52-56: `os.Exit(0)` when `exitCode == 0` (result `none`),
otherwise `crashCount++`; `some c` is the value of `crashCount` that line 59
compares with the threshold. -/
def countCrash (p : Int × Int) : Option Int :=
  if p.1 == 0 then none else some (p.2 + 1)

/-- The value of `crashCount` tested at run.go:59 after the child's exit `r`,
or `none` when the supervisor exited at line 53. -/
def countedAtThreshold (r : WaitResult) (crashCount : Int) : Option Int :=
  countCrash (classify r crashCount)

/-- The block run.go:59-67 on the counted value: returns the new `crashCount`
and whether `s.Rollback()` was called.  `rollbackErr` says whether that call
returned an error: then `Rollback failed` is logged, and in both cases
`crashCount = 0` follows. -/
def thresholdCheck (crashCount : Int) (rollbackErr : Bool) : Int × Bool :=
  if crashCount ≥ 3 then
    if rollbackErr then (0, true) else (0, true)
  else (crashCount, false)

/-- Result of the part of an iteration that follows `cmd.Wait()`. -/
inductive Handled where
  /-- The call `os.Exit(code)` at line 53, with `crashCount` at that point. -/
  | osExit (code : Int) (crashCount : Int)
  /-- The loop goes on to the next iteration with this `crashCount`;
  `rollback` tells whether `s.Rollback()` was called. -/
  | relaunch (crashCount : Int) (rollback : Bool)
  deriving DecidableEq, Repr

/-- The lines run.go:35-69 of one iteration. -/
def handleExit (crashCount : Int) (r : WaitResult) (rollbackErr : Bool) : Handled :=
  let p := classify r crashCount
  match countCrash p with
  | none => .osExit 0 p.2
  | some c =>
      let q := thresholdCheck c rollbackErr
      .relaunch q.1 q.2

/-- Where the supervisor process is. -/
inductive Phase where
  /-- At the top of the `for` loop, before the `select`. -/
  | top
  /-- A worker runs; the loop is blocked in `cmd.Wait()`. -/
  | waiting
  /-- The supervisor called `os.Exit(code)`. -/
  | exited (code : Int)
  /-- The call `cmd.Start()` failed and the supervisor panicked. -/
  | panicked
  deriving DecidableEq, Repr

/-- State of a running `Supervisor.Run`.  `tickPending` is the content of the
capacity-one channel `resetWindow.C`; `rollbacks` and `launches` count the calls
of `s.Rollback()` and the successful calls of `cmd.Start()`. -/
structure Sup where
  phase : Phase
  crashCount : Int
  tickPending : Bool
  rollbacks : Nat
  launches : Nat
  deriving DecidableEq, Repr

/-- State at run.go:17, before the first iteration. -/
def Sup.init : Sup :=
  { phase := .top, crashCount := 0, tickPending := false, rollbacks := 0, launches := 0 }

/-- What can happen to a running supervisor. -/
inductive Event where
  /-- The 5-minute ticker fires: a tick is put in `resetWindow.C` (dropped when
  the channel is full). -/
  | tick
  /-- The loop runs from the `select` to `cmd.Start()` (run.go:18-33);
  `startErr` says whether `cmd.Start()` failed. -/
  | launch (startErr : Bool)
  /-- The call `cmd.Wait()` returns `r` and the loop runs to the end of the
  iteration (run.go:35-69). -/
  | childExit (r : WaitResult) (rollbackErr : Bool)
  deriving DecidableEq, Repr

/-- One transition of the supervisor.  An event that cannot happen in the
current phase leaves the state as it is. -/
def step (s : Sup) : Event → Sup
  | .tick =>
      match s.phase with
      | .top => { s with tickPending := true }
      | .waiting => { s with tickPending := true }
      | _ => s
  | .launch startErr =>
      match s.phase with
      | .top =>
          let c := selectReset s.tickPending s.crashCount
          if startErr then
            { s with phase := .panicked, crashCount := c, tickPending := false }
          else
            { s with phase := .waiting, crashCount := c, tickPending := false,
                     launches := s.launches + 1 }
      | _ => s
  | .childExit r rollbackErr =>
      match s.phase with
      | .waiting =>
          match handleExit s.crashCount r rollbackErr with
          | .osExit code c => { s with phase := .exited code, crashCount := c }
          | .relaunch c rb =>
              { s with phase := .top, crashCount := c,
                       rollbacks := s.rollbacks + (if rb then 1 else 0) }
      | _ => s

/-- Run a sequence of events. -/
def run (s : Sup) (es : List Event) : Sup := es.foldl step s

/-- The events of consecutive iterations with the given child exits, every
`cmd.Start()` succeeding and no tick of the window timer. -/
def crashes : List (WaitResult × Bool) → List Event
  | [] => []
  | (r, rb) :: rest => .launch false :: .childExit r rb :: crashes rest

/-! ## Role bootstrap: `IsSupervisorProcess` and `SocketPath` -/

/-- The process environment as `os.Environ()` gives it: `key=value` entries in
order, here already split at the first `=`. -/
abbrev Environ := List (String × String)

/-- Go `os.LookupEnv`: the value of the first entry for `key`, if there is one. -/
def LookupEnv (env : Environ) (key : String) : Option String :=
  match env with
  | [] => none
  | (k, v) :: rest => if k = key then some v else LookupEnv rest key

/-- Go `os.Getenv`: the value of the variable, empty when it is not present. -/
def Getenv (env : Environ) (key : String) : String :=
  match LookupEnv env key with
  | some v => v
  | none => ""

/-- The function `IsSupervisorProcess` of run.go:73-75.  The package constant
`socketEnv` (the name of the marker variable) is declared outside the given
sources and is a parameter. -/
def IsSupervisorProcess (socketEnv : String) (env : Environ) : Bool :=
  Getenv env socketEnv == ""

/-- The function `SocketPath` of run.go:77-83; `pid` is the result of
`os.Getpid()` and `%d` prints it in decimal. -/
def SocketPath (socketEnv : String) (env : Environ) (pid : Int) : String :=
  if IsSupervisorProcess socketEnv env then
    "/tmp/knockknock-" ++ toString pid ++ ".sock"
  else
    Getenv env socketEnv

/-! ## `parseVersions` (ipc/client.go) -/

/-- The struct `semver.Version` of `github.com/Masterminds/semver/v3`. -/
structure Version where
  major : Nat
  minor : Nat
  patch : Nat
  pre : String
  metadata : String
  original : String
  deriving DecidableEq, Repr

/-- The Go zero value of `semver.Version`. -/
def Version.zero : Version :=
  { major := 0, minor := 0, patch := 0, pre := "", metadata := "", original := "" }

/-- The `for i, v := range versions` loop of client.go:190-200 from index `i`
on: a string that `NewVersion` rejects is skipped by `continue`, an accepted
one is stored with `result[i] = *version`. -/
def parseVersionsLoop (NewVersion : String → Option Version) :
    List String → Nat → List Version → List Version
  | [], _, result => result
  | v :: rest, i, result =>
      match NewVersion v with
      | none => parseVersionsLoop NewVersion rest (i + 1) result
      | some version => parseVersionsLoop NewVersion rest (i + 1) (result.set i version)

/-- The function `parseVersions` of client.go:187-203.  The library parser
`semver.NewVersion` is a parameter (`none` is its error result);
`make([]semver.Version, len(versions))` is a slice of zero values. -/
def parseVersions (NewVersion : String → Option Version) (versions : List String) :
    List Version :=
  parseVersionsLoop NewVersion versions 0 (List.replicate versions.length Version.zero)

/-- The result of `semver.NewVersion` on the three strings used in the worked
example below: `1.0.0` and `2.0.0` parse, `not-a-version` is rejected. -/
def exampleNewVersion (s : String) : Option Version :=
  if s = "1.0.0" then
    some { major := 1, minor := 0, patch := 0, pre := "", metadata := "", original := "1.0.0" }
  else if s = "2.0.0" then
    some { major := 2, minor := 0, patch := 0, pre := "", metadata := "", original := "2.0.0" }
  else none

/-! ## IPC server handlers (ipc/server.go) -/

/-- Go `http.MethodPost`. -/
def MethodPost : String := "POST"
/-- Go `http.MethodGet`. -/
def MethodGet : String := "GET"
/-- Go `http.StatusOK`. -/
def StatusOK : Nat := 200
/-- Go `http.StatusBadRequest`. -/
def StatusBadRequest : Nat := 400
/-- Go `http.StatusMethodNotAllowed`. -/
def StatusMethodNotAllowed : Nat := 405
/-- Go `http.StatusInternalServerError`. -/
def StatusInternalServerError : Nat := 500

/-- The struct `UpdateRequest` of server.go:29-31. -/
structure UpdateRequest where
  Version : String
  deriving DecidableEq, Repr

/-- The struct `UpdateResponse` of server.go:33-36. -/
structure UpdateResponse where
  Success : Bool
  Message : String
  deriving DecidableEq, Repr

/-- The struct `RollbackResponse` of server.go:38-41. -/
structure RollbackResponse where
  Success : Bool
  Message : String
  deriving DecidableEq, Repr

/-- The struct `VersionsResponse` of server.go:23-27. -/
structure VersionsResponse where
  Update : Option Version
  Current : Version
  Versions : List Version
  deriving DecidableEq, Repr

/-- The struct `HistoryEntry` of server.go:47-50; `LastInstalled` is a
`time.Time`, kept as a number of nanoseconds. -/
structure HistoryEntry where
  Version : Version
  LastInstalled : Int
  deriving DecidableEq, Repr

/-- The struct `HistoryResponse` of server.go:43-45. -/
structure HistoryResponse where
  History : List HistoryEntry
  deriving DecidableEq, Repr

/-- An incoming request as the handlers read it: `r.Method`, and for `/update`
the outcome of `json.NewDecoder(r.Body).Decode(&req)` (`none` when `Decode`
returns an error). -/
structure Request where
  Method : String
  decoded : Option UpdateRequest
  deriving DecidableEq, Repr

/-- A method of `*supervisor.Supervisor` called by a handler. -/
inductive SupervisorCall where
  | CheckForUpdate
  | CurrentVersion
  | History
  | Update (version : String)
  | Rollback
  deriving DecidableEq, Repr

/-- What a handler writes to the `http.ResponseWriter`. -/
inductive Body where
  /-- The text written by `http.Error` (a newline follows it on the wire). -/
  | error (msg : String)
  | versions (r : VersionsResponse)
  | update (r : UpdateResponse)
  | rollback (r : RollbackResponse)
  | history (r : HistoryResponse)
  deriving DecidableEq, Repr

/-- The observable effect of one handler call: the status code and body of
the response, the Supervisor methods called before the handler returns
(`calls`), and the Supervisor methods started in a goroutine by `go func()`
(`spawned`). -/
structure Reply where
  status : Nat
  body : Body
  calls : List SupervisorCall
  spawned : List SupervisorCall
  deriving DecidableEq, Repr

/-- Go `http.Error(w, msg, code)` as the last action of a handler. -/
def httpError (msg : String) (code : Nat) (calls : List SupervisorCall) : Reply :=
  { status := code, body := .error msg, calls := calls, spawned := [] }

/-- The method `Server.handleVersions` of server.go:96-114.  The result of
`s.supervisor.CheckForUpdate` (an error message, or the update candidate and
the version list) and of `s.supervisor.CurrentVersion` are parameters: these
methods are outside the given sources. -/
def handleVersions (checkForUpdate : Except String (Option Version × List Version))
    (currentVersion : Version) (_r : Request) : Reply :=
  match checkForUpdate with
  | .error err => httpError err StatusInternalServerError [.CheckForUpdate]
  | .ok (update, versions) =>
      { status := StatusOK,
        body := .versions { Update := update, Current := currentVersion, Versions := versions },
        calls := [.CheckForUpdate, .CurrentVersion],
        spawned := [] }

/-- The method `Server.handleUpdate` of server.go:116-150. -/
def handleUpdate (r : Request) : Reply :=
  if r.Method ≠ MethodPost then
    httpError "Method not allowed" StatusMethodNotAllowed []
  else
    match r.decoded with
    | none => httpError "Invalid request body" StatusBadRequest []
    | some req =>
        if req.Version = "" then
          httpError "Version is required" StatusBadRequest []
        else
          { status := StatusOK,
            body := .update
              { Success := true,
                Message := "Update to version " ++ req.Version ++
                  " initiated, process will restart" },
            calls := [],
            spawned := [.Update req.Version] }

/-- The method `Server.handleRollback` of server.go:152-175. -/
def handleRollback (r : Request) : Reply :=
  if r.Method ≠ MethodPost then
    httpError "Method not allowed" StatusMethodNotAllowed []
  else
    { status := StatusOK,
      body := .rollback { Success := true, Message := "Rollback initiated, process will restart" },
      calls := [],
      spawned := [.Rollback] }

/-- The method `Server.handleHistory` of server.go:177-193.  The result of
`s.supervisor.History()` is a parameter; the loop copies the two fields of
every entry. -/
def handleHistory (history : List HistoryEntry) (_r : Request) : Reply :=
  { status := StatusOK,
    body := .history
      { History := history.map
          (fun h => { Version := h.Version, LastInstalled := h.LastInstalled }) },
    calls := [.History],
    spawned := [] }

/-- The four routes registered in `Server.Serve` (server.go:76-79). -/
inductive Endpoint where
  | versions
  | update
  | rollback
  | history
  deriving DecidableEq, Repr

/-- The method each endpoint is meant for in the wire protocol, which is the
method the client uses for it (client.go:74, 107, 139, 167). -/
def Endpoint.ownMethod : Endpoint → String
  | .versions => MethodGet
  | .update => MethodPost
  | .rollback => MethodPost
  | .history => MethodGet

/-- The dispatch of `http.ServeMux` to the registered handler. -/
def serve (checkForUpdate : Except String (Option Version × List Version))
    (currentVersion : Version) (history : List HistoryEntry) (e : Endpoint) (r : Request) :
    Reply :=
  match e with
  | .versions => handleVersions checkForUpdate currentVersion r
  | .update => handleUpdate r
  | .rollback => handleRollback r
  | .history => handleHistory history r

/-! ## Detached tasks of the mutating handlers (ipc/server.go) -/

/-- A record written with `slog`: level, message and attributes. -/
structure LogRecord where
  level : String
  msg : String
  attrs : List (String × String)
  deriving DecidableEq, Repr

/-- The body of the goroutine started by `handleUpdate` (server.go:136-140) or
by `handleRollback` (server.go:161-165): the Supervisor method is called and an
error it returns is logged.  `outcome` is what the call returns, `none` for a
nil error.  The handlers start no goroutine for the other methods. -/
def detachedTask (c : SupervisorCall) (outcome : Option String) : List LogRecord :=
  match c, outcome with
  | .Update version, some err =>
      [{ level := "ERROR", msg := "Update failed",
         attrs := [("error", err), ("version", version)] }]
  | .Rollback, some err =>
      [{ level := "ERROR", msg := "Rollback failed", attrs := [("error", err)] }]
  | _, _ => []

/-- Everything the server does for one request: the reply of the handler and
the records logged by the goroutines it started. -/
structure Served where
  reply : Reply
  taskLog : List LogRecord
  deriving DecidableEq, Repr

/-- A handler's reply together with the run of its goroutines, each of which
gets `outcome` as the result of its Supervisor call. -/
def withTasks (reply : Reply) (outcome : Option String) : Served :=
  { reply := reply,
    taskLog := (reply.spawned.map (fun c => detachedTask c outcome)).flatten }

/-- The handling of a request to `/update`, goroutine included; `outcome` is
the result of `s.supervisor.Update`. -/
def serveUpdate (r : Request) (outcome : Option String) : Served :=
  withTasks (handleUpdate r) outcome

/-- The handling of a request to `/rollback`, goroutine included; `outcome` is
the result of `s.supervisor.Rollback`. -/
def serveRollback (r : Request) (outcome : Option String) : Served :=
  withTasks (handleRollback r) outcome

/-! ## IPC client (ipc/client.go) -/

/-- What `c.httpClient.Do(req)` (or `Get`) returns: an error, or the final
response with its `StatusCode`, the text of its body as `io.ReadAll` reads it,
and the outcome of `json.NewDecoder(resp.Body).Decode` into the expected struct
(`Except.error` carries the decoder's error). -/
inductive DoResult (α : Type) where
  | failed (err : String)
  | response (StatusCode : Nat) (body : String) (decoded : Except String α)

/-- A request sent over the socket by `c.httpClient`. -/
structure SentRequest where
  Method : String
  URL : String
  body : Option UpdateRequest
  deriving DecidableEq, Repr

/-- The result of a mutating client call: the returned `error` (`none` for
nil) and the requests that the one call of `c.httpClient.Do` sent, in order. -/
structure CallResult where
  err : Option String
  sent : List SentRequest
  deriving DecidableEq, Repr

/-- The `Location` header of a response as `http.Client` reads it: absent
(empty), present but not parsable, or the URL it resolves to. -/
inductive Location where
  | absent
  | invalid (raw : String)
  | url (u : String)
  deriving DecidableEq, Repr

/-- The outcome of one round trip on the socket: a transport error (timeout,
connection refused), or the supervisor's response with its `StatusCode`, its
`Location` header, the text of its body and the outcome of decoding that body
into the expected struct. -/
inductive RoundTrip (α : Type) where
  | failed (err : String)
  | response (StatusCode : Nat) (Location : Location) (body : String)
      (decoded : Except String α)

/-- Go `redirectBehavior` of `net/http/client.go`: the method of the follow-up
request, whether the response is a redirect to follow, and whether the body is
sent again.  301, 302 and 303 turn a POST into a GET without body; 307 and 308
keep method and body.  The test `ireq.GetBody == nil && ireq.outgoingLength() != 0`
of the Go function is false for both requests of this client (a
`bytes.Reader` body has `GetBody`, a nil body has length 0). -/
def redirectBehavior (reqMethod : String) (StatusCode : Nat) : String × Bool × Bool :=
  if StatusCode = 301 ∨ StatusCode = 302 ∨ StatusCode = 303 then
    (if reqMethod ≠ "GET" ∧ reqMethod ≠ "HEAD" then "GET" else reqMethod, true, false)
  else if StatusCode = 307 ∨ StatusCode = 308 then
    (reqMethod, true, true)
  else
    (reqMethod, false, false)

/-- The loop of Go `(*http.Client).do` for a client without `CheckRedirect`,
as `NewClient` builds it (client.go:23-31).  `rt i` is the outcome of the
round trip of the request number `i`, `ireq` the first request, `reqs` the
requests sent so far, and `budget` the number of redirects the default policy
still allows (it stops with an error once 10 requests were sent).  Returns what
`Do` returns and all requests sent. -/
def doLoop {α : Type} (rt : Nat → RoundTrip α) (ireq : SentRequest) :
    Nat → SentRequest → List SentRequest → DoResult α × List SentRequest
  | budget, req, reqs =>
    match rt reqs.length with
    | .failed err => (.failed err, reqs ++ [req])
    | .response StatusCode loc body decoded =>
      if (redirectBehavior req.Method StatusCode).2.1 = false then
        (.response StatusCode body decoded, reqs ++ [req])
      else
        match loc with
        | .absent => (.response StatusCode body decoded, reqs ++ [req])
        | .invalid raw => (.failed ("failed to parse Location header " ++ raw), reqs ++ [req])
        | .url u =>
          match budget with
          | 0 => (.failed "stopped after 10 redirects", reqs ++ [req])
          | b + 1 =>
            doLoop rt ireq b
              { Method := (redirectBehavior req.Method StatusCode).1, URL := u,
                body := if (redirectBehavior req.Method StatusCode).2.2 then ireq.body
                        else none }
              (reqs ++ [req])

/-- The call `c.httpClient.Do(req)`: the request is sent, redirects are
followed, and the final response (or an error) comes back. -/
def httpClientDo {α : Type} (rt : Nat → RoundTrip α) (req : SentRequest) :
    DoResult α × List SentRequest :=
  doLoop rt req 9 req []

/-- The request built at client.go:64-79. -/
def Client.updateRequest (version : String) : SentRequest :=
  { Method := MethodPost, URL := "http://unix/update", body := some { Version := version } }

/-- The request built at client.go:107. -/
def Client.rollbackRequest : SentRequest :=
  { Method := MethodPost, URL := "http://unix/rollback", body := none }

/-- The lines client.go:83-103: the error `Client.Update` returns for the
result `d` of `c.httpClient.Do` (`none` for nil). -/
def Client.finishUpdate (d : DoResult UpdateResponse) : Option String :=
  match d with
  | .failed err => some ("failed to send update request: " ++ err)
  | .response StatusCode body decoded =>
      if StatusCode ≠ StatusOK then
        some ("update request failed with status " ++ toString StatusCode ++ ": " ++ body)
      else
        match decoded with
        | .error err => some ("failed to decode response: " ++ err)
        | .ok updateResp =>
            if !updateResp.Success then some ("update failed: " ++ updateResp.Message)
            else none

/-- The lines client.go:115-135: the error `Client.Rollback` returns for the
result `d` of `c.httpClient.Do` (`none` for nil). -/
def Client.finishRollback (d : DoResult RollbackResponse) : Option String :=
  match d with
  | .failed err => some ("failed to send rollback request: " ++ err)
  | .response StatusCode body decoded =>
      if StatusCode ≠ StatusOK then
        some ("rollback request failed with status " ++ toString StatusCode ++ ": " ++ body)
      else
        match decoded with
        | .error err => some ("failed to decode response: " ++ err)
        | .ok rollbackResp =>
            if !rollbackResp.Success then some ("rollback failed: " ++ rollbackResp.Message)
            else none

/-- The method `Client.Update` of client.go:63-104.  `marshalErr` and
`newRequestErr` are the errors of `json.Marshal` and
`http.NewRequestWithContext` (`none` for nil), `rt` gives the outcome of every
round trip on the socket. -/
def Client.Update (version : String) (marshalErr newRequestErr : Option String)
    (rt : Nat → RoundTrip UpdateResponse) : CallResult :=
  match marshalErr with
  | some err => { err := some ("failed to marshal request: " ++ err), sent := [] }
  | none =>
    match newRequestErr with
    | some err => { err := some ("failed to create request: " ++ err), sent := [] }
    | none =>
      let r := httpClientDo rt (Client.updateRequest version)
      { err := Client.finishUpdate r.1, sent := r.2 }

/-- The method `Client.Rollback` of client.go:106-136, with the same inputs as
`Client.Update` except that no body is marshalled. -/
def Client.Rollback (newRequestErr : Option String) (rt : Nat → RoundTrip RollbackResponse) :
    CallResult :=
  match newRequestErr with
  | some err => { err := some ("failed to create request: " ++ err), sent := [] }
  | none =>
    let r := httpClientDo rt Client.rollbackRequest
    { err := Client.finishRollback r.1, sent := r.2 }

/-- The method `Client.versions` of client.go:166-185; `d` is the result of
`c.httpClient.Get("http://unix/versions")`. -/
def Client.versions (d : DoResult VersionsResponse) : Except String VersionsResponse :=
  match d with
  | .failed err => .error ("failed to query supervisor: " ++ err)
  | .response StatusCode _ decoded =>
      if StatusCode ≠ StatusOK then
        .error ("supervisor returned status " ++ toString StatusCode)
      else
        match decoded with
        | .error err => .error ("failed to decode response: " ++ err)
        | .ok data => .ok data

/-- The three results of `Client.CheckForUpdate`: the update candidate (a
pointer, `none` for nil), the version list (`[]` for a nil slice) and the error
(`none` for nil). -/
structure CheckResult where
  Update : Option Version
  Versions : List Version
  err : Option String
  deriving DecidableEq, Repr

/-- The method `Client.CheckForUpdate` of client.go:49-61. -/
def Client.CheckForUpdate (d : DoResult VersionsResponse) : CheckResult :=
  match Client.versions d with
  | .error err => { Update := none, Versions := [], err := some err }
  | .ok resp =>
      if resp.Versions.length = 0 then
        { Update := none, Versions := [], err := some "no versions found in repository" }
      else
        { Update := resp.Update, Versions := resp.Versions, err := none }

/-! ## Reading back a decimal numeral (used to show that `%d` is injective) -/

/-- The value of a decimal digit character. -/
def digitValue (c : Char) : Nat := c.toNat - 48

/-- The number written by a list of decimal digits, most significant first. -/
def decimalValue (ds : List Char) : Nat :=
  ds.foldl (fun acc c => 10 * acc + digitValue c) 0

/-! # Theorems -/

/-! ## `Supervisor.Run` -/

/-- A signal-killed status is not an exited one, so `ExitStatus` is `-1`. -/
theorem WaitStatus.exitStatus_of_signaled (w : WaitStatus)
    (h : WaitStatus.Signaled w = true) : WaitStatus.ExitStatus w = -1 := by
  unfold WaitStatus.Signaled at h
  unfold WaitStatus.ExitStatus WaitStatus.Exited
  simp only [Bool.and_eq_true, bne_iff_ne, ne_eq] at h
  have h0 : ((w &&& WaitStatus.mask) == WaitStatus.exited) = false := by
    simpa using h.2
  simp [h0]

/-- A status with a non-zero exit code does not report a signal. -/
theorem WaitStatus.not_signaled_of_exited (w : WaitStatus)
    (h : WaitStatus.Exited w = true) : WaitStatus.Signaled w = false := by
  unfold WaitStatus.Exited at h
  unfold WaitStatus.Signaled
  have h0 : (w &&& WaitStatus.mask) = WaitStatus.exited := by simpa using h
  simp [h0]

/-- A non-zero exit code is counted once. -/
theorem countedAtThreshold_nonZeroExit (r : WaitResult) (c : Int)
    (h : r.nonZeroExit = true) : countedAtThreshold r c = some (c + 1) := by
  match r, h with
  | .exitError (some w), h =>
    simp only [WaitResult.nonZeroExit, Bool.and_eq_true, bne_iff_ne, ne_eq] at h
    have hs := WaitStatus.not_signaled_of_exited w h.1
    simp [countedAtThreshold, classify, countCrash, hs, h.2]

/-- One iteration whose child exits with a non-zero code, with no rollback
due: the count goes up by one. -/
theorem handleExit_nonZeroExit_lt (r : WaitResult) (c : Int) (rb : Bool)
    (h : r.nonZeroExit = true) (hc : c + 1 < 3) :
    handleExit c r rb = .relaunch (c + 1) false := by
  have h1 := countedAtThreshold_nonZeroExit r c h
  unfold countedAtThreshold at h1
  have h2 : ¬ (c + 1 ≥ 3) := by omega
  simp [handleExit, h1, thresholdCheck, h2]

/-- One iteration whose child exits with a non-zero code and brings the
count to the threshold: `Rollback` is called and the count is reset. -/
theorem handleExit_nonZeroExit_ge (r : WaitResult) (c : Int) (rb : Bool)
    (h : r.nonZeroExit = true) (hc : 3 ≤ c + 1) :
    handleExit c r rb = .relaunch 0 true := by
  have h1 := countedAtThreshold_nonZeroExit r c h
  unfold countedAtThreshold at h1
  have h2 : c + 1 ≥ 3 := by omega
  cases rb <;> simp [handleExit, h1, thresholdCheck, h2]

theorem run_append (s : Sup) (es fs : List Event) : run s (es ++ fs) = run (run s es) fs := by
  simp [run, List.foldl_append]

theorem crashes_append (l m : List (WaitResult × Bool)) :
    crashes (l ++ m) = crashes l ++ crashes m := by
  induction l with
  | nil => rfl
  | cons x rest ih =>
    obtain ⟨r, rb⟩ := x
    simp [crashes, ih]

/-- The state after `n` consecutive non-zero exits with no tick: a rollback
every third crash, and the count is the number of crashes since the last one. -/
theorem run_crashes_nonZeroExit (l : List (WaitResult × Bool))
    (h : ∀ x ∈ l, x.1.nonZeroExit = true) :
    run Sup.init (crashes l) =
      { phase := .top, crashCount := ((l.length % 3 : Nat) : Int), tickPending := false,
        rollbacks := l.length / 3, launches := l.length } := by
  induction l using List.reverseRecOn with
  | nil => rfl
  | append_singleton l x ih =>
    obtain ⟨r, rb⟩ := x
    have hl : ∀ y ∈ l, y.1.nonZeroExit = true := fun y hy => h y (by simp [hy])
    have hr : r.nonZeroExit = true := h (r, rb) (by simp)
    rw [crashes_append, run_append, ih hl]
    have hmod : l.length % 3 < 3 := Nat.mod_lt _ (by decide)
    by_cases hc : l.length % 3 + 1 < 3
    · have e := handleExit_nonZeroExit_lt r ((l.length % 3 : Nat) : Int) rb hr (by omega)
      simp only [crashes, run, List.foldl, step, selectReset, e, List.length_append,
        List.length_singleton]
      have e1 : (l.length + 1) % 3 = l.length % 3 + 1 := by omega
      have e2 : (l.length + 1) / 3 = l.length / 3 := by omega
      have e3 := e
      push_cast at e3
      simp [e1, e2, e3]
    · have e := handleExit_nonZeroExit_ge r ((l.length % 3 : Nat) : Int) rb hr (by omega)
      simp only [crashes, run, List.foldl, step, selectReset, e, List.length_append,
        List.length_singleton]
      have e1 : (l.length + 1) % 3 = 0 := by omega
      have e2 : (l.length + 1) / 3 = l.length / 3 + 1 := by omega
      have e3 := e
      push_cast at e3
      simp [e1, e2, e3]

/-- A signal kill leaves line 52 with exit code `-1` and a count already
raised once at line 45. -/
theorem classify_signaled (w : WaitStatus) (c : Int) (h : WaitStatus.Signaled w = true) :
    classify (.exitError (some w)) c = (-1, c + 1) := by
  simp [classify, h, WaitStatus.exitStatus_of_signaled w h]

/-- One iteration whose child is killed by a signal. -/
theorem handleExit_signaled (w : WaitStatus) (c : Int) (rb : Bool)
    (h : WaitStatus.Signaled w = true) :
    handleExit c (.exitError (some w)) rb =
      if c + 2 ≥ 3 then .relaunch 0 true else .relaunch (c + 2) false := by
  have e : c + 1 + 1 = c + 2 := by ring
  by_cases hc : c + 2 ≥ 3 <;> cases rb <;>
    simp [handleExit, classify_signaled w c h, countCrash, thresholdCheck, e, hc]

/-- C1 (the code departs from the claim): from `crashCount = 0` and with no
tick of the window timer, two consecutive signal kills already make the loop
call `Rollback`: after the first one `crashCount` is 2 and `Rollback` has not
been called, after the second one `Rollback` has been called once and
`crashCount` is 0, whatever `Rollback` returned. The claim has the rollback at
the third faulty exit. -/
theorem run_two_signal_kills (w1 w2 : WaitStatus) (rb1 rb2 : Bool)
    (h1 : (WaitResult.exitError (some w1)).signalKilled = true)
    (h2 : (WaitResult.exitError (some w2)).signalKilled = true) :
    (WaitResult.exitError (some w1)).faulty = true ∧
    (WaitResult.exitError (some w2)).faulty = true ∧
    run Sup.init (crashes [(.exitError (some w1), rb1)]) =
      { phase := .top, crashCount := 2, tickPending := false, rollbacks := 0, launches := 1 } ∧
    run Sup.init (crashes [(.exitError (some w1), rb1), (.exitError (some w2), rb2)]) =
      { phase := .top, crashCount := 0, tickPending := false, rollbacks := 1, launches := 2 } := by
  have s1 : WaitStatus.Signaled w1 = true := h1
  have s2 : WaitStatus.Signaled w2 = true := h2
  refine ⟨by simp [WaitResult.faulty, h1], by simp [WaitResult.faulty, h2], ?_, ?_⟩
  · simp [crashes, run, step, selectReset, Sup.init, handleExit_signaled w1 0 rb1 s1]
  · simp [crashes, run, step, selectReset, Sup.init, handleExit_signaled w1 0 rb1 s1,
      handleExit_signaled w2 2 rb2 s2]

/-- Instance of `run_two_signal_kills`: two kills by SIGKILL (wait status 9). -/
theorem run_two_signal_kills_witness :
    (WaitResult.exitError (some 9)).signalKilled = true ∧
    (run Sup.init (crashes [(.exitError (some 9), false), (.exitError (some 9), true)])).rollbacks
      = 1 :=
  ⟨by decide, by
    rw [(run_two_signal_kills 9 9 false true (by decide) (by decide)).2.2.2]⟩

/-- C2 (the code departs from the claim): when the child was killed by a
signal, the value of `crashCount` compared with the threshold at line 59 is the
previous value plus two: it is raised at line 45 and again at line 56, because
`ExitStatus()` of a signalled status is `-1`. The claim says plus one. -/
theorem countedAtThreshold_signalKilled (r : WaitResult) (c : Int)
    (h : r.signalKilled = true) : countedAtThreshold r c = some (c + 2) := by
  match r, h with
  | .exitError (some w), h =>
    have s : WaitStatus.Signaled w = true := h
    have e : c + 1 + 1 = c + 2 := by ring
    simp [countedAtThreshold, classify_signaled w c s, countCrash, e]

/-- Instance of `countedAtThreshold_signalKilled`: a segmentation fault
(SIGSEGV, wait status 11) at `crashCount = 0` is counted as 2. -/
theorem countedAtThreshold_signalKilled_witness :
    (WaitResult.exitError (some 11)).signalKilled = true ∧
    countedAtThreshold (.exitError (some 11)) 0 = some 2 :=
  ⟨by decide, countedAtThreshold_signalKilled (.exitError (some 11)) 0 (by decide)⟩

/-- After `os.Exit` nothing happens any more. -/
theorem run_exited (s : Sup) (code : Int) (h : s.phase = .exited code) (es : List Event) :
    run s es = s := by
  induction es with
  | nil => rfl
  | cons e rest ih =>
    have hs : step s e = s := by
      cases e <;> simp [step, h]
    simpa [run, List.foldl, hs] using ih

/-- C3: whatever `crashCount` is, when `cmd.Wait()` returns no error the part
of the iteration after the wait is `os.Exit(0)` with `crashCount` untouched; in
the running supervisor the phase becomes `exited 0`, the counter, the number of
`Rollback` calls and the number of launches stay as they were, and no later
event changes the state (no relaunch). -/
theorem clean_exit_terminates (s : Sup) (rb : Bool) (h : s.phase = .waiting) :
    handleExit s.crashCount .nil rb = .osExit 0 s.crashCount ∧
    step s (.childExit .nil rb) = { s with phase := .exited 0 } ∧
    ∀ es : List Event, run (step s (.childExit .nil rb)) es = { s with phase := .exited 0 } := by
  have e : handleExit s.crashCount .nil rb = .osExit 0 s.crashCount := by
    simp [handleExit, classify, countCrash]
  have e2 : step s (.childExit .nil rb) = { s with phase := .exited 0 } := by
    simp [step, h, e]
  refine ⟨e, e2, fun es => ?_⟩
  rw [e2]
  exact run_exited _ 0 rfl es

/-- Instance of `clean_exit_terminates`: a clean exit after two crashes. -/
theorem clean_exit_terminates_witness :
    step { phase := .waiting, crashCount := 2, tickPending := false, rollbacks := 0,
           launches := 3 } (.childExit .nil false) =
      { phase := .exited 0, crashCount := 2, tickPending := false, rollbacks := 0,
        launches := 3 } :=
  (clean_exit_terminates
    { phase := .waiting, crashCount := 2, tickPending := false, rollbacks := 0, launches := 3 }
    false rfl).2.1

/-- C4 (the code departs from the claim): when `cmd.Wait()` returns an error
that is not an `*exec.ExitError`, or an exit error whose `Sys()` is not a
`syscall.WaitStatus`, `exitCode` keeps its initial value 0 and the supervisor
calls `os.Exit(0)` with `crashCount` unchanged: the exit is not counted and the
worker is not relaunched. The claim says it is treated as faulty. -/
theorem uninterpretable_exit_exits_zero (c : Int) (rb : Bool) (s : Sup) :
    handleExit c .other rb = .osExit 0 c ∧
    handleExit c (.exitError none) rb = .osExit 0 c ∧
    step { s with phase := .waiting } (.childExit .other rb) = { s with phase := .exited 0 } ∧
    step { s with phase := .waiting } (.childExit (.exitError none) rb) =
      { s with phase := .exited 0 } := by
  refine ⟨?_, ?_, ?_, ?_⟩ <;> simp [step, handleExit, classify, countCrash]

/-- C5 (the code departs from the claim): two crashes with exit code 1, the
third worker is launched, the window timer fires while it runs, and it crashes
with exit code 1. Nothing reads the ticker while `cmd.Wait()` blocks: the tick
stays in the channel until the next `select`, the third crash is counted on top
of the two earlier ones, `Rollback` is called, and `crashCount` is 0 and not 1,
although the ticker is there to reset the counter every 5 minutes. -/
theorem tick_while_third_worker_runs :
    (WaitResult.exitError (some 256)).faulty = true ∧
    run Sup.init
        [.launch false, .childExit (.exitError (some 256)) false,
         .launch false, .childExit (.exitError (some 256)) false,
         .launch false, .tick, .childExit (.exitError (some 256)) false] =
      { phase := .top, crashCount := 0, tickPending := true, rollbacks := 1, launches := 3 } ∧
    ¬ ((run Sup.init
        [.launch false, .childExit (.exitError (some 256)) false,
         .launch false, .childExit (.exitError (some 256)) false,
         .launch false, .tick, .childExit (.exitError (some 256)) false]).crashCount = 1 ∧
       (run Sup.init
        [.launch false, .childExit (.exitError (some 256)) false,
         .launch false, .childExit (.exitError (some 256)) false,
         .launch false, .tick, .childExit (.exitError (some 256)) false]).rollbacks = 0) := by
  decide

/-- The sibling timing, where the reset does happen: from `crashCount = 0`,
two crashes with a non-zero exit code, then a tick of the window timer after
the second crash and before the third worker is launched, then a third crash
with a non-zero exit code: the `select` at the top of the third iteration
resets the counter, so after the third crash `crashCount` is 1 and `Rollback`
has not been called. -/
theorem tick_before_third_launch (r1 r2 r3 : WaitResult) (b1 b2 b3 : Bool)
    (h1 : r1.nonZeroExit = true) (h2 : r2.nonZeroExit = true) (h3 : r3.nonZeroExit = true) :
    run Sup.init
        [.launch false, .childExit r1 b1, .launch false, .childExit r2 b2,
         .tick, .launch false, .childExit r3 b3] =
      { phase := .top, crashCount := 1, tickPending := false, rollbacks := 0, launches := 3 } := by
  have e1 := handleExit_nonZeroExit_lt r1 0 b1 h1 (by norm_num)
  have e2 := handleExit_nonZeroExit_lt r2 1 b2 h2 (by norm_num)
  have e3 := handleExit_nonZeroExit_lt r3 0 b3 h3 (by norm_num)
  norm_num at e1 e2 e3
  simp [run, step, selectReset, Sup.init, e1, e2, e3]

/-- The tick that fires while the third worker runs is missed for every
three crashes with a non-zero exit code: `Rollback` is called at the third. -/
theorem tick_during_wait_missed (r1 r2 r3 : WaitResult) (b1 b2 b3 : Bool)
    (h1 : r1.nonZeroExit = true) (h2 : r2.nonZeroExit = true) (h3 : r3.nonZeroExit = true) :
    run Sup.init
        [.launch false, .childExit r1 b1, .launch false, .childExit r2 b2,
         .launch false, .tick, .childExit r3 b3] =
      { phase := .top, crashCount := 0, tickPending := true, rollbacks := 1, launches := 3 } := by
  have e1 := handleExit_nonZeroExit_lt r1 0 b1 h1 (by norm_num)
  have e2 := handleExit_nonZeroExit_lt r2 1 b2 h2 (by norm_num)
  have e3 := handleExit_nonZeroExit_ge r3 2 b3 h3 (by norm_num)
  norm_num at e1 e2 e3
  simp [run, step, selectReset, Sup.init, e1, e2, e3]

/-- Instance of `tick_before_third_launch`: three crashes with exit code 1. -/
theorem tick_before_third_launch_witness :
    (WaitResult.exitError (some 256)).nonZeroExit = true ∧
    (run Sup.init
        [.launch false, .childExit (.exitError (some 256)) false,
         .launch false, .childExit (.exitError (some 256)) false,
         .tick, .launch false, .childExit (.exitError (some 256)) false]).crashCount = 1 :=
  ⟨by decide, by
    rw [tick_before_third_launch (.exitError (some 256)) (.exitError (some 256))
      (.exitError (some 256)) false false false (by decide) (by decide) (by decide)]⟩

/-! ## Role bootstrap -/

theorem digitValue_digitChar (d : Nat) (h : d < 10) : digitValue (Nat.digitChar d) = d := by
  interval_cases d <;> rfl

theorem digitChar_ne_minus (d : Nat) (h : d < 10) : Nat.digitChar d ≠ '-' := by
  interval_cases d <;> decide

theorem decimalValue_snoc (ds : List Char) (c : Char) :
    decimalValue (ds ++ [c]) = 10 * decimalValue ds + digitValue c := by
  simp [decimalValue, List.foldl_append]

/-- The digits are put in front of the accumulator. -/
theorem toDigitsCore_acc (fuel n : Nat) (ds : List Char) :
    Nat.toDigitsCore 10 fuel n ds = Nat.toDigitsCore 10 fuel n [] ++ ds := by
  induction fuel generalizing n ds with
  | zero => simp [Nat.toDigitsCore]
  | succ f ih =>
    simp only [Nat.toDigitsCore]
    by_cases h : n / 10 = 0
    · simp [h]
    · simp only [h, if_false]
      rw [ih (n / 10) (Nat.digitChar (n % 10) :: ds), ih (n / 10) [Nat.digitChar (n % 10)]]
      simp

/-- Reading the printed digits gives the number back. -/
theorem decimalValue_toDigitsCore (fuel n : Nat) (h : n < fuel) :
    decimalValue (Nat.toDigitsCore 10 fuel n []) = n := by
  induction fuel generalizing n with
  | zero => omega
  | succ f ih =>
    simp only [Nat.toDigitsCore]
    by_cases h0 : n / 10 = 0
    · simp only [h0, if_true]
      have hn : n % 10 = n := by omega
      have hlt : n < 10 := by omega
      simp [decimalValue, hn, digitValue_digitChar n hlt]
    · simp only [h0, if_false]
      rw [toDigitsCore_acc, decimalValue_snoc, ih (n / 10) (by omega),
        digitValue_digitChar _ (Nat.mod_lt _ (by decide))]
      omega

/-- Every printed character is a decimal digit, so none is a minus sign. -/
theorem toDigitsCore_no_minus (fuel n : Nat) (ds : List Char) (h : '-' ∉ ds) :
    '-' ∉ Nat.toDigitsCore 10 fuel n ds := by
  induction fuel generalizing n ds with
  | zero => simpa [Nat.toDigitsCore] using h
  | succ f ih =>
    have hd : '-' ∉ Nat.digitChar (n % 10) :: ds := by
      intro hm
      rcases List.mem_cons.mp hm with e | e
      · exact digitChar_ne_minus _ (Nat.mod_lt _ (by decide)) e.symm
      · exact h e
    simp only [Nat.toDigitsCore]
    by_cases h0 : n / 10 = 0
    · simpa [h0] using hd
    · simp only [h0, if_false]
      exact ih (n / 10) _ hd

theorem toDigits_injective (m n : Nat) (h : Nat.toDigits 10 m = Nat.toDigits 10 n) : m = n := by
  have hm := decimalValue_toDigitsCore (m + 1) m (by omega)
  have hn := decimalValue_toDigitsCore (n + 1) n (by omega)
  unfold Nat.toDigits at h
  rw [h] at hm
  omega

/-- Printing an integer in decimal is injective. -/
theorem toString_int_injective (a b : Int) (h : toString a = toString b) : a = b := by
  have key : ∀ i : Int, (toString i).data =
      match i with
      | Int.ofNat m => Nat.toDigits 10 m
      | Int.negSucc m => '-' :: Nat.toDigits 10 (m + 1) := by
    intro i
    cases i <;> rfl
  have hd : (toString a).data = (toString b).data := by rw [h]
  rw [key a, key b] at hd
  cases a with
  | ofNat m =>
    cases b with
    | ofNat n => simp only at hd; rw [toDigits_injective m n hd]
    | negSucc n =>
      simp only at hd
      exact absurd (hd ▸ List.mem_cons_self _ _ : '-' ∈ Nat.toDigits 10 m)
        (toDigitsCore_no_minus _ _ [] (by simp))
  | negSucc m =>
    cases b with
    | ofNat n =>
      simp only at hd
      exact absurd (hd ▸ List.mem_cons_self _ _ : '-' ∈ Nat.toDigits 10 n)
        (toDigitsCore_no_minus _ _ [] (by simp))
    | negSucc n =>
      simp only [List.cons.injEq, true_and] at hd
      have := toDigits_injective _ _ hd
      have e : m = n := by omega
      rw [e]

theorem Getenv_of_lookup (env : Environ) (key : String) :
    Getenv env key = (LookupEnv env key).getD "" := by
  unfold Getenv
  cases LookupEnv env key <;> rfl

/-- C6: the role depends only on the marker variable `socketEnv`: when it is
absent the process is the Supervisor (`true`), when it is present and holds a
transport address (a non-empty value) the process is the Worker (`false`), and
two environments that agree on the variable give the same role. -/
theorem IsSupervisorProcess_role (socketEnv : String) (env : Environ) :
    (LookupEnv env socketEnv = none → IsSupervisorProcess socketEnv env = true) ∧
    (∀ addr : String, LookupEnv env socketEnv = some addr → addr ≠ "" →
      IsSupervisorProcess socketEnv env = false) ∧
    (∀ env2 : Environ, LookupEnv env2 socketEnv = LookupEnv env socketEnv →
      IsSupervisorProcess socketEnv env2 = IsSupervisorProcess socketEnv env) := by
  refine ⟨?_, ?_, ?_⟩
  · intro h
    simp [IsSupervisorProcess, Getenv_of_lookup, h]
  · intro addr h hne
    simp [IsSupervisorProcess, Getenv_of_lookup, h, hne]
  · intro env2 h
    simp [IsSupervisorProcess, Getenv_of_lookup, h]

/-- Instance of `IsSupervisorProcess_role`: an environment without the marker,
one with it, and one that differs from the second only in another variable. -/
theorem IsSupervisorProcess_role_witness :
    IsSupervisorProcess "KNOCKKNOCK_SOCKET" [("HOME", "/root")] = true ∧
    IsSupervisorProcess "KNOCKKNOCK_SOCKET"
      [("HOME", "/root"), ("KNOCKKNOCK_SOCKET", "/tmp/knockknock-7.sock")] = false ∧
    IsSupervisorProcess "KNOCKKNOCK_SOCKET"
      [("KNOCKKNOCK_SOCKET", "/tmp/knockknock-7.sock"), ("HOME", "/home/u")] =
    IsSupervisorProcess "KNOCKKNOCK_SOCKET"
      [("HOME", "/root"), ("KNOCKKNOCK_SOCKET", "/tmp/knockknock-7.sock")] :=
  ⟨(IsSupervisorProcess_role "KNOCKKNOCK_SOCKET" [("HOME", "/root")]).1 (by decide),
   (IsSupervisorProcess_role "KNOCKKNOCK_SOCKET"
      [("HOME", "/root"), ("KNOCKKNOCK_SOCKET", "/tmp/knockknock-7.sock")]).2.1
      "/tmp/knockknock-7.sock" (by decide) (by decide),
   (IsSupervisorProcess_role "KNOCKKNOCK_SOCKET"
      [("HOME", "/root"), ("KNOCKKNOCK_SOCKET", "/tmp/knockknock-7.sock")]).2.2
      [("KNOCKKNOCK_SOCKET", "/tmp/knockknock-7.sock"), ("HOME", "/home/u")] (by decide)⟩

/-- C7: in the Supervisor role `SocketPath` is `/tmp/knockknock-`, the decimal
process identifier, `.sock`, and two supervisors with distinct process
identifiers get distinct paths; in the Worker role (the marker variable holds a
non-empty address) it is exactly the value of the marker variable, whatever the
worker's own process identifier is. -/
theorem SocketPath_spec (socketEnv : String) (env : Environ) :
    (IsSupervisorProcess socketEnv env = true →
      (∀ pid : Int, SocketPath socketEnv env pid =
        "/tmp/knockknock-" ++ toString pid ++ ".sock") ∧
      (∀ (env2 : Environ) (pid1 pid2 : Int), IsSupervisorProcess socketEnv env2 = true →
        pid1 ≠ pid2 → SocketPath socketEnv env pid1 ≠ SocketPath socketEnv env2 pid2)) ∧
    (∀ addr : String, LookupEnv env socketEnv = some addr → addr ≠ "" →
      IsSupervisorProcess socketEnv env = false ∧
      ∀ pid : Int, SocketPath socketEnv env pid = addr) := by
  refine ⟨?_, ?_⟩
  · intro h
    refine ⟨fun pid => by simp [SocketPath, h], ?_⟩
    intro env2 pid1 pid2 h2 hne heq
    simp only [SocketPath, h, h2, if_true] at heq
    have hd := congrArg String.data heq
    simp only [String.data_append, List.append_cancel_left_eq, List.append_cancel_right_eq] at hd
    exact hne (toString_int_injective pid1 pid2 (String.ext hd))
  · intro addr h hne
    have hw : IsSupervisorProcess socketEnv env = false := by
      simp [IsSupervisorProcess, Getenv_of_lookup, h, hne]
    refine ⟨hw, fun pid => ?_⟩
    simp [SocketPath, hw, Getenv_of_lookup, h]

/-- Instance of `SocketPath_spec`: supervisors 41 and 42, and a worker with
process identifier 43 started by supervisor 42. -/
theorem SocketPath_spec_witness :
    SocketPath "KNOCKKNOCK_SOCKET" [] 42 = "/tmp/knockknock-" ++ toString (42 : Int) ++ ".sock" ∧
    SocketPath "KNOCKKNOCK_SOCKET" [] 41 ≠ SocketPath "KNOCKKNOCK_SOCKET" [("HOME", "/")] 42 ∧
    SocketPath "KNOCKKNOCK_SOCKET" [("KNOCKKNOCK_SOCKET", "/tmp/knockknock-42.sock")] 43 =
      "/tmp/knockknock-42.sock" :=
  ⟨((SocketPath_spec "KNOCKKNOCK_SOCKET" []).1 (by decide)).1 42,
   ((SocketPath_spec "KNOCKKNOCK_SOCKET" []).1 (by decide)).2 [("HOME", "/")] 41 42
      (by decide) (by decide),
   ((SocketPath_spec "KNOCKKNOCK_SOCKET"
      [("KNOCKKNOCK_SOCKET", "/tmp/knockknock-42.sock")]).2
      "/tmp/knockknock-42.sock" (by decide) (by decide)).2 43⟩

/-! ## `parseVersions` -/

/-- The loop fills the slots from index `done.length` on: a parsed value for
an accepted string, the zero value left by `make` for a rejected one. -/
theorem parseVersionsLoop_eq (NewVersion : String → Option Version) (vs : List String)
    (done : List Version) :
    parseVersionsLoop NewVersion vs done.length
        (done ++ List.replicate vs.length Version.zero) =
      done ++ vs.map (fun v => (NewVersion v).getD Version.zero) := by
  induction vs generalizing done with
  | nil => simp [parseVersionsLoop]
  | cons v rest ih =>
    have hlen : (done ++ [Version.zero]).length = done.length + 1 := by simp
    cases hv : NewVersion v with
    | none =>
      have := ih (done ++ [Version.zero])
      rw [hlen] at this
      simpa [parseVersionsLoop, hv, List.replicate_succ] using this
    | some x =>
      have := ih (done ++ [x])
      have hlen2 : (done ++ [x]).length = done.length + 1 := by simp
      rw [hlen2] at this
      simpa [parseVersionsLoop, hv, List.replicate_succ] using this

/-- C8 (the code departs from the claim): `parseVersions` does not drop a
malformed string. Its result has one element per input string: the parsed
value for a well-formed string and the zero `semver.Version` for a malformed
one. On `1.0.0`, `not-a-version`, `2.0.0` it returns three elements, the
second being the zero version, where the claim has the two parsed values. -/
theorem parseVersions_keeps_malformed_slots (NewVersion : String → Option Version)
    (vs : List String) :
    parseVersions NewVersion vs = vs.map (fun v => (NewVersion v).getD Version.zero) ∧
    (parseVersions NewVersion vs).length = vs.length ∧
    parseVersions exampleNewVersion ["1.0.0", "not-a-version", "2.0.0"] =
      [{ major := 1, minor := 0, patch := 0, pre := "", metadata := "", original := "1.0.0" },
       Version.zero,
       { major := 2, minor := 0, patch := 0, pre := "", metadata := "", original := "2.0.0" }] ∧
    List.filterMap exampleNewVersion ["1.0.0", "not-a-version", "2.0.0"] =
      [{ major := 1, minor := 0, patch := 0, pre := "", metadata := "", original := "1.0.0" },
       { major := 2, minor := 0, patch := 0, pre := "", metadata := "", original := "2.0.0" }] := by
  have h : parseVersions NewVersion vs =
      vs.map (fun v => (NewVersion v).getD Version.zero) := by
    have := parseVersionsLoop_eq NewVersion vs []
    simpa [parseVersions] using this
  refine ⟨h, by simp [h], by decide, by decide⟩

/-! ## IPC server handlers -/

/-- C9: `handleUpdate` answers 405 to every request that is not a POST, and 400
to every POST whose body does not decode or whose version is empty; in these
cases it calls no Supervisor method and starts no goroutine. It starts
`Supervisor.Update v` only for a POST whose body decodes to the non-empty
version `v`, and then does start it. -/
theorem handleUpdate_validation (r : Request) :
    (r.Method ≠ MethodPost →
      (handleUpdate r).status = 405 ∧ (handleUpdate r).spawned = [] ∧
      (handleUpdate r).calls = []) ∧
    (r.Method = MethodPost → (r.decoded = none ∨ r.decoded = some { Version := "" }) →
      (handleUpdate r).status = 400 ∧ (handleUpdate r).spawned = [] ∧
      (handleUpdate r).calls = []) ∧
    (∀ c : SupervisorCall, c ∈ (handleUpdate r).spawned ∨ c ∈ (handleUpdate r).calls →
      ∃ v : String, c = .Update v ∧ r.Method = MethodPost ∧
        r.decoded = some { Version := v } ∧ v ≠ "") ∧
    (∀ v : String, r.Method = MethodPost → r.decoded = some { Version := v } → v ≠ "" →
      (handleUpdate r).status = 200 ∧ (handleUpdate r).spawned = [.Update v]) := by
  obtain ⟨m, d⟩ := r
  refine ⟨?_, ?_, ?_, ?_⟩
  · intro h
    simp only at h
    simp [handleUpdate, h, httpError, StatusMethodNotAllowed]
  · intro h hd
    simp only at h hd
    rcases hd with hd | hd <;>
      simp [handleUpdate, h, hd, httpError, StatusBadRequest]
  · intro c hc
    by_cases hm : m = MethodPost
    · cases d with
      | none => simp [handleUpdate, hm, httpError] at hc
      | some req =>
        obtain ⟨v⟩ := req
        by_cases hv : v = ""
        · simp [handleUpdate, hm, hv, httpError] at hc
        · simp [handleUpdate, hm, hv] at hc
          exact ⟨v, hc, hm, rfl, hv⟩
    · simp [handleUpdate, hm, httpError] at hc
  · intro v h hd hv
    simp only at h hd
    simp [handleUpdate, h, hd, hv, StatusOK]

/-- Instance of `handleUpdate_validation`: a GET, a POST with an undecodable
body, a POST with an empty version and a POST for version 1.3.0. -/
theorem handleUpdate_validation_witness :
    (handleUpdate { Method := "GET", decoded := some { Version := "1.3.0" } }).status = 405 ∧
    (handleUpdate { Method := "POST", decoded := none }).status = 400 ∧
    (handleUpdate { Method := "POST", decoded := some { Version := "" } }).spawned = [] ∧
    (∃ v : String, SupervisorCall.Update "1.3.0" = .Update v ∧ "POST" = MethodPost ∧
      some ({ Version := "1.3.0" } : UpdateRequest) = some { Version := v } ∧ v ≠ "") ∧
    (handleUpdate { Method := "POST", decoded := some { Version := "1.3.0" } }).spawned =
      [.Update "1.3.0"] :=
  ⟨((handleUpdate_validation { Method := "GET", decoded := some { Version := "1.3.0" } }).1
      (by decide)).1,
   ((handleUpdate_validation { Method := "POST", decoded := none }).2.1 rfl (Or.inl rfl)).1,
   ((handleUpdate_validation { Method := "POST", decoded := some { Version := "" } }).2.1
      rfl (Or.inr rfl)).2.1,
   (handleUpdate_validation { Method := "POST", decoded := some { Version := "1.3.0" } }).2.2.1
      (.Update "1.3.0") (Or.inl (by decide)),
   ((handleUpdate_validation { Method := "POST", decoded := some { Version := "1.3.0" } }).2.2.2
      "1.3.0" rfl rfl (by decide)).2⟩

/-- The two mutating endpoints reject every method other than POST with 405
and without any Supervisor operation. -/
theorem mutating_endpoints_reject_other_methods
    (cfu : Except String (Option Version × List Version)) (cur : Version)
    (hist : List HistoryEntry) (r : Request) (h : r.Method ≠ MethodPost) :
    serve cfu cur hist .update r = httpError "Method not allowed" 405 [] ∧
    serve cfu cur hist .rollback r = httpError "Method not allowed" 405 [] := by
  simp [serve, handleUpdate, handleRollback, h, StatusMethodNotAllowed]

/-- C10 (the code departs from the claim): `handleVersions` and `handleHistory`
never look at the request method. For every request, also a POST or a DELETE,
`/versions` calls `Supervisor.CheckForUpdate` (and answers 200 when that
succeeds) and `/history` calls `Supervisor.History` and answers 200; the claim
has them answer an error without any Supervisor operation. -/
theorem read_endpoints_ignore_method (update : Option Version) (versions : List Version)
    (err : String) (cur : Version) (hist : List HistoryEntry) (r : Request) :
    serve (.ok (update, versions)) cur hist .versions r =
      { status := 200,
        body := .versions { Update := update, Current := cur, Versions := versions },
        calls := [.CheckForUpdate, .CurrentVersion], spawned := [] } ∧
    (serve (.error err) cur hist .versions r).calls = [.CheckForUpdate] ∧
    (serve (.ok (update, versions)) cur hist .history r).status = 200 ∧
    (serve (.ok (update, versions)) cur hist .history r).calls = [.History] ∧
    MethodPost ≠ Endpoint.versions.ownMethod ∧
    (serve (.ok (none, [])) Version.zero [] .versions { Method := "POST", decoded := none }).status
      = 200 ∧
    (serve (.ok (none, [])) Version.zero [] .history { Method := "DELETE", decoded := none }).calls
      = [.History] := by
  refine ⟨rfl, rfl, rfl, rfl, by decide, by decide, by decide⟩

/-! ## Acknowledgment of the mutating endpoints -/

/-- C11: the acknowledgment of an accepted mutating request is the same
whatever the detached Supervisor call returns. For a POST to `/update` whose
body decodes to the non-empty version `v` the reply is 200 with success true
and the message `Update to version v initiated, process will restart`, and
`Supervisor.Update v` is started; for a POST to `/rollback` the reply is 200
with success true and `Rollback initiated, process will restart`. An error of
the detached call only shows in the server log. -/
theorem acknowledgment_independent_of_outcome (r : Request) (outcome : Option String) :
    (∀ v : String, r.Method = MethodPost → r.decoded = some { Version := v } → v ≠ "" →
      (serveUpdate r outcome).reply =
        { status := 200,
          body := .update
            { Success := true,
              Message := "Update to version " ++ v ++ " initiated, process will restart" },
          calls := [], spawned := [.Update v] } ∧
      (serveUpdate r outcome).taskLog =
        match outcome with
        | some err =>
            [{ level := "ERROR", msg := "Update failed",
               attrs := [("error", err), ("version", v)] }]
        | none => []) ∧
    (r.Method = MethodPost →
      (serveRollback r outcome).reply =
        { status := 200,
          body := .rollback
            { Success := true, Message := "Rollback initiated, process will restart" },
          calls := [], spawned := [.Rollback] } ∧
      (serveRollback r outcome).taskLog =
        match outcome with
        | some err => [{ level := "ERROR", msg := "Rollback failed", attrs := [("error", err)] }]
        | none => []) ∧
    (∀ other : Option String,
      (serveUpdate r outcome).reply = (serveUpdate r other).reply ∧
      (serveRollback r outcome).reply = (serveRollback r other).reply) := by
  obtain ⟨m, d⟩ := r
  refine ⟨?_, ?_, fun other => ⟨rfl, rfl⟩⟩
  · intro v hm hd hv
    simp only at hm hd
    cases outcome <;>
      simp [serveUpdate, withTasks, handleUpdate, detachedTask, hm, hd, hv, StatusOK]
  · intro hm
    simp only at hm
    cases outcome <;>
      simp [serveRollback, withTasks, handleRollback, detachedTask, hm, StatusOK]

/-- Instance of `acknowledgment_independent_of_outcome`: an update to 1.3.0
whose installation fails, and a rollback that fails on an empty history. -/
theorem acknowledgment_independent_of_outcome_witness :
    (serveUpdate { Method := "POST", decoded := some { Version := "1.3.0" } }
        (some "download failed")).reply.body =
      .update { Success := true,
                Message := "Update to version 1.3.0 initiated, process will restart" } ∧
    (serveRollback { Method := "POST", decoded := none } (some "no history")).reply.body =
      .rollback { Success := true, Message := "Rollback initiated, process will restart" } :=
  ⟨by
    rw [((acknowledgment_independent_of_outcome
      { Method := "POST", decoded := some { Version := "1.3.0" } } (some "download failed")).1
      "1.3.0" rfl rfl (by decide)).1]
    decide,
   by
    rw [((acknowledgment_independent_of_outcome
      { Method := "POST", decoded := none } (some "no history")).2.1 rfl).1]⟩

/-! ## IPC client -/

/-- A status other than the five redirect statuses is never followed. -/
theorem redirectBehavior_other (m : String) (st : Nat)
    (h : st ≠ 301 ∧ st ≠ 302 ∧ st ≠ 303 ∧ st ≠ 307 ∧ st ≠ 308) :
    (redirectBehavior m st).2.1 = false := by
  obtain ⟨h1, h2, h3, h4, h5⟩ := h
  simp [redirectBehavior, h1, h2, h3, h4, h5]

/-- A transport error ends `Do` with that error. -/
theorem doLoop_failed {α : Type} (rt : Nat → RoundTrip α) (ireq req : SentRequest)
    (budget : Nat) (reqs : List SentRequest) (e : String) (h : rt reqs.length = .failed e) :
    doLoop rt ireq budget req reqs = (.failed e, reqs ++ [req]) := by
  unfold doLoop
  simp [h]

/-- A response that is not a redirect to follow is what `Do` returns. -/
theorem doLoop_final {α : Type} (rt : Nat → RoundTrip α) (ireq req : SentRequest)
    (budget : Nat) (reqs : List SentRequest) (st : Nat) (loc : Location) (b : String)
    (dec : Except String α) (h : rt reqs.length = .response st loc b dec)
    (hn : (redirectBehavior req.Method st).2.1 = false ∨ loc = .absent) :
    doLoop rt ireq budget req reqs = (.response st b dec, reqs ++ [req]) := by
  unfold doLoop
  rcases hn with hn | hn
  · simp [h, hn]
  · subst hn
    by_cases hr : (redirectBehavior req.Method st).2.1 = false
    · simp [h, hr]
    · simp [h, hr]

/-- The loop sends at least one and at most `budget + 1` further requests. -/
theorem doLoop_sent_length {α : Type} (rt : Nat → RoundTrip α) (ireq : SentRequest)
    (budget : Nat) (req : SentRequest) (reqs : List SentRequest) :
    reqs.length + 1 ≤ (doLoop rt ireq budget req reqs).2.length ∧
    (doLoop rt ireq budget req reqs).2.length ≤ reqs.length + budget + 1 := by
  induction budget generalizing req reqs with
  | zero =>
    unfold doLoop
    cases h : rt reqs.length with
    | failed e => simp
    | response st loc b dec =>
      by_cases hr : (redirectBehavior req.Method st).2.1 = false
      · simp [hr]
      · cases loc <;> simp [hr]
  | succ n ih =>
    unfold doLoop
    cases h : rt reqs.length with
    | failed e => simp
    | response st loc b dec =>
      by_cases hr : (redirectBehavior req.Method st).2.1 = false
      · simp [hr]
      · cases loc with
        | absent => simp [hr]
        | invalid raw => simp [hr]
        | url u =>
          have hr2 : (redirectBehavior req.Method st).2.1 = true := by simpa using hr
          simp only [hr2, Bool.true_eq_false, if_false]
          have := ih
            { Method := (redirectBehavior req.Method st).1, URL := u,
              body := if (redirectBehavior req.Method st).2.2 then ireq.body else none }
            (reqs ++ [req])
          simp only [List.length_append, List.length_singleton] at this
          constructor <;> omega

/-- A response returned by `Do` is the answer to the last request sent. -/
theorem doLoop_response {α : Type} (rt : Nat → RoundTrip α) (ireq : SentRequest)
    (budget : Nat) (req : SentRequest) (reqs : List SentRequest) (st : Nat) (b : String)
    (dec : Except String α) (h : (doLoop rt ireq budget req reqs).1 = .response st b dec) :
    ∃ loc : Location,
      rt ((doLoop rt ireq budget req reqs).2.length - 1) = .response st loc b dec := by
  induction budget generalizing req reqs with
  | zero =>
    unfold doLoop at h ⊢
    cases hrt : rt reqs.length with
    | failed e => simp [hrt] at h
    | response st2 loc b2 dec2 =>
      by_cases hr : (redirectBehavior req.Method st2).2.1 = false
      · simp [hrt, hr] at h
        obtain ⟨h1, h2, h3⟩ := h
        subst h1 h2 h3
        exact ⟨loc, by simp [hrt, hr]⟩
      · cases loc with
        | absent =>
          simp [hrt, hr] at h
          obtain ⟨h1, h2, h3⟩ := h
          subst h1 h2 h3
          exact ⟨.absent, by simp [hrt, hr]⟩
        | invalid raw => simp [hrt, hr] at h
        | url u => simp [hrt, hr] at h
  | succ n ih =>
    unfold doLoop at h ⊢
    cases hrt : rt reqs.length with
    | failed e => simp [hrt] at h
    | response st2 loc b2 dec2 =>
      by_cases hr : (redirectBehavior req.Method st2).2.1 = false
      · simp [hrt, hr] at h
        obtain ⟨h1, h2, h3⟩ := h
        subst h1 h2 h3
        exact ⟨loc, by simp [hrt, hr]⟩
      · cases loc with
        | absent =>
          simp [hrt, hr] at h
          obtain ⟨h1, h2, h3⟩ := h
          subst h1 h2 h3
          exact ⟨.absent, by simp [hrt, hr]⟩
        | invalid raw => simp [hrt, hr] at h
        | url u =>
          have hr2 : (redirectBehavior req.Method st2).2.1 = true := by simpa using hr
          simp only [hrt, hr2, Bool.true_eq_false, if_false] at h ⊢
          exact ih _ _ h

theorem httpClientDo_failed {α : Type} (rt : Nat → RoundTrip α) (req : SentRequest)
    (e : String) (h : rt 0 = .failed e) : httpClientDo rt req = (.failed e, [req]) := by
  have := doLoop_failed rt req req 9 [] e (by simpa using h)
  simpa [httpClientDo] using this

theorem httpClientDo_direct {α : Type} (rt : Nat → RoundTrip α) (req : SentRequest)
    (st : Nat) (loc : Location) (b : String) (dec : Except String α)
    (h : rt 0 = .response st loc b dec)
    (hn : (st ≠ 301 ∧ st ≠ 302 ∧ st ≠ 303 ∧ st ≠ 307 ∧ st ≠ 308) ∨ loc = .absent) :
    httpClientDo rt req = (.response st b dec, [req]) := by
  have hn2 : (redirectBehavior req.Method st).2.1 = false ∨ loc = .absent :=
    hn.imp (redirectBehavior_other req.Method st) id
  have := doLoop_final rt req req 9 [] st loc b dec (by simpa using h) hn2
  simpa [httpClientDo] using this

theorem httpClientDo_sent_length {α : Type} (rt : Nat → RoundTrip α) (req : SentRequest) :
    1 ≤ (httpClientDo rt req).2.length ∧ (httpClientDo rt req).2.length ≤ 10 := by
  have := doLoop_sent_length rt req 9 req []
  simpa [httpClientDo] using this

theorem Client.finishUpdate_eq_none (d : DoResult UpdateResponse) :
    Client.finishUpdate d = none ↔
      ∃ (b msg : String), d = .response 200 b (.ok { Success := true, Message := msg }) := by
  constructor
  · intro h
    cases d with
    | failed e => simp [Client.finishUpdate] at h
    | response st b dec =>
      by_cases hs : st = StatusOK
      · cases dec with
        | error e => simp [Client.finishUpdate, hs] at h
        | ok resp =>
          obtain ⟨succ, msg⟩ := resp
          cases succ with
          | false => simp [Client.finishUpdate, hs] at h
          | true => exact ⟨b, msg, by rw [hs]; rfl⟩
      · simp [Client.finishUpdate, hs] at h
  · rintro ⟨b, msg, rfl⟩
    simp [Client.finishUpdate, StatusOK]

theorem Client.finishRollback_eq_none (d : DoResult RollbackResponse) :
    Client.finishRollback d = none ↔
      ∃ (b msg : String), d = .response 200 b (.ok { Success := true, Message := msg }) := by
  constructor
  · intro h
    cases d with
    | failed e => simp [Client.finishRollback] at h
    | response st b dec =>
      by_cases hs : st = StatusOK
      · cases dec with
        | error e => simp [Client.finishRollback, hs] at h
        | ok resp =>
          obtain ⟨succ, msg⟩ := resp
          cases succ with
          | false => simp [Client.finishRollback, hs] at h
          | true => exact ⟨b, msg, by rw [hs]; rfl⟩
      · simp [Client.finishRollback, hs] at h
  · rintro ⟨b, msg, rfl⟩
    simp [Client.finishRollback, StatusOK]

theorem Client.finishUpdate_bad (st : Nat) (b : String) (dec : Except String UpdateResponse)
    (h : st ≠ 200 ∨ ∃ e : String, dec = .error e) :
    Client.finishUpdate (.response st b dec) ≠ none := by
  intro hn
  obtain ⟨b2, msg, he⟩ := (Client.finishUpdate_eq_none _).1 hn
  cases he
  rcases h with h | ⟨e, h⟩
  · exact h rfl
  · cases h

theorem Client.finishRollback_bad (st : Nat) (b : String)
    (dec : Except String RollbackResponse)
    (h : st ≠ 200 ∨ ∃ e : String, dec = .error e) :
    Client.finishRollback (.response st b dec) ≠ none := by
  intro hn
  obtain ⟨b2, msg, he⟩ := (Client.finishRollback_eq_none _).1 hn
  cases he
  rcases h with h | ⟨e, h⟩
  · exact h rfl
  · cases h

/-- C12 (the claim fails as stated): the supervisor answers the update
request with 307 and a `Location`, and the follow-up request with 200 and
success true. The HTTP client built by `NewClient` follows the redirect, so the
call sends two requests, and it returns nil although the supervisor gave a
response with a non-2xx status. -/
theorem update_follows_redirect :
    Client.Update "1.3.0" none none
        (fun i =>
          if i = 0 then .response 307 (.url "http://unix/update") "" (.error "EOF")
          else .response 200 .absent "ack" (.ok { Success := true, Message := "ok" })) =
      { err := none,
        sent := [{ Method := "POST", URL := "http://unix/update",
                   body := some { Version := "1.3.0" } },
                 { Method := "POST", URL := "http://unix/update",
                   body := some { Version := "1.3.0" } }] } ∧
    ¬ ((Client.Update "1.3.0" none none
        (fun i =>
          if i = 0 then .response 307 (.url "http://unix/update") "" (.error "EOF")
          else .response 200 .absent "ack" (.ok { Success := true, Message := "ok" }))).err
        ≠ none) ∧
    ¬ ((Client.Update "1.3.0" none none
        (fun i =>
          if i = 0 then .response 307 (.url "http://unix/update") "" (.error "EOF")
          else .response 200 .absent "ack"
            (.ok { Success := true, Message := "ok" }))).sent.length = 1) := by
  decide

/-- C12 (amended): `Client.Update` and `Client.Rollback` call the HTTP client
once, and the HTTP client follows redirects. For the final response, the one
the HTTP client returns (the answer to the last request sent): a status other
than 200 or a body that fails to decode gives a non-nil error, and nil is
returned exactly when the request was built and the final response has status
200, decodes and has success true. When the first answer has a status other
than 301, 302, 303, 307 and 308, or no `Location`, or the transport fails,
exactly one request is sent; in every case between 1 and 10 requests are sent
once the request is built, and none when it cannot be built. -/
theorem client_mutations_surface_final_failures (version : String)
    (rtu : Nat → RoundTrip UpdateResponse) (rtr : Nat → RoundTrip RollbackResponse) :
    (∀ (st : Nat) (b : String) (dec : Except String UpdateResponse),
      (httpClientDo rtu (Client.updateRequest version)).1 = .response st b dec →
      (∃ loc : Location,
        rtu ((Client.Update version none none rtu).sent.length - 1) =
          .response st loc b dec) ∧
      ((st ≠ 200 ∨ ∃ e : String, dec = .error e) →
        (Client.Update version none none rtu).err ≠ none)) ∧
    (∀ (st : Nat) (b : String) (dec : Except String RollbackResponse),
      (httpClientDo rtr Client.rollbackRequest).1 = .response st b dec →
      (∃ loc : Location,
        rtr ((Client.Rollback none rtr).sent.length - 1) = .response st loc b dec) ∧
      ((st ≠ 200 ∨ ∃ e : String, dec = .error e) →
        (Client.Rollback none rtr).err ≠ none)) ∧
    (∀ me ne : Option String,
      (Client.Update version me ne rtu).err = none ↔
        me = none ∧ ne = none ∧
        ∃ (b msg : String), (httpClientDo rtu (Client.updateRequest version)).1 =
          .response 200 b (.ok { Success := true, Message := msg })) ∧
    (∀ ne : Option String,
      (Client.Rollback ne rtr).err = none ↔
        ne = none ∧
        ∃ (b msg : String), (httpClientDo rtr Client.rollbackRequest).1 =
          .response 200 b (.ok { Success := true, Message := msg })) ∧
    (∀ (st : Nat) (loc : Location) (b : String) (dec : Except String UpdateResponse),
      rtu 0 = .response st loc b dec →
      ((st ≠ 301 ∧ st ≠ 302 ∧ st ≠ 303 ∧ st ≠ 307 ∧ st ≠ 308) ∨ loc = .absent) →
      (Client.Update version none none rtu).sent = [Client.updateRequest version] ∧
      ((st ≠ 200 ∨ ∃ e : String, dec = .error e) →
        (Client.Update version none none rtu).err ≠ none)) ∧
    (∀ (st : Nat) (loc : Location) (b : String) (dec : Except String RollbackResponse),
      rtr 0 = .response st loc b dec →
      ((st ≠ 301 ∧ st ≠ 302 ∧ st ≠ 303 ∧ st ≠ 307 ∧ st ≠ 308) ∨ loc = .absent) →
      (Client.Rollback none rtr).sent = [Client.rollbackRequest] ∧
      ((st ≠ 200 ∨ ∃ e : String, dec = .error e) →
        (Client.Rollback none rtr).err ≠ none)) ∧
    (∀ e : String, rtu 0 = .failed e →
      (Client.Update version none none rtu).sent = [Client.updateRequest version] ∧
      (Client.Update version none none rtu).err ≠ none) ∧
    (∀ e : String, rtr 0 = .failed e →
      (Client.Rollback none rtr).sent = [Client.rollbackRequest] ∧
      (Client.Rollback none rtr).err ≠ none) ∧
    (1 ≤ (Client.Update version none none rtu).sent.length ∧
      (Client.Update version none none rtu).sent.length ≤ 10 ∧
      1 ≤ (Client.Rollback none rtr).sent.length ∧
      (Client.Rollback none rtr).sent.length ≤ 10) ∧
    (∀ (e : String) (me ne : Option String),
      (Client.Update version (some e) ne rtu).sent = [] ∧
      (Client.Update version (some e) ne rtu).err ≠ none ∧
      (Client.Update version me (some e) rtu).sent = [] ∧
      (Client.Update version me (some e) rtu).err ≠ none ∧
      (Client.Rollback (some e) rtr).sent = [] ∧
      (Client.Rollback (some e) rtr).err ≠ none) := by
  refine ⟨?_, ?_, ?_, ?_, ?_, ?_, ?_, ?_, ?_, ?_⟩
  · intro st b dec h
    refine ⟨?_, fun hb => ?_⟩
    · have := doLoop_response rtu (Client.updateRequest version) 9
        (Client.updateRequest version) [] st b dec h
      simpa [Client.Update, httpClientDo] using this
    · simpa [Client.Update, h] using Client.finishUpdate_bad st b dec hb
  · intro st b dec h
    refine ⟨?_, fun hb => ?_⟩
    · have := doLoop_response rtr Client.rollbackRequest 9 Client.rollbackRequest [] st b dec h
      simpa [Client.Rollback, httpClientDo] using this
    · simpa [Client.Rollback, h] using Client.finishRollback_bad st b dec hb
  · intro me ne
    cases me with
    | some e => simp [Client.Update]
    | none =>
      cases ne with
      | some e => simp [Client.Update]
      | none => simpa [Client.Update] using Client.finishUpdate_eq_none _
  · intro ne
    cases ne with
    | some e => simp [Client.Rollback]
    | none => simpa [Client.Rollback] using Client.finishRollback_eq_none _
  · intro st loc b dec h hn
    have hd := httpClientDo_direct rtu (Client.updateRequest version) st loc b dec h hn
    refine ⟨by simp [Client.Update, hd], fun hb => ?_⟩
    simpa [Client.Update, hd] using Client.finishUpdate_bad st b dec hb
  · intro st loc b dec h hn
    have hd := httpClientDo_direct rtr Client.rollbackRequest st loc b dec h hn
    refine ⟨by simp [Client.Rollback, hd], fun hb => ?_⟩
    simpa [Client.Rollback, hd] using Client.finishRollback_bad st b dec hb
  · intro e h
    have hd := httpClientDo_failed rtu (Client.updateRequest version) e h
    simp [Client.Update, hd, Client.finishUpdate]
  · intro e h
    have hd := httpClientDo_failed rtr Client.rollbackRequest e h
    simp [Client.Rollback, hd, Client.finishRollback]
  · have h1 := httpClientDo_sent_length rtu (Client.updateRequest version)
    have h2 := httpClientDo_sent_length rtr Client.rollbackRequest
    simpa [Client.Update, Client.Rollback] using ⟨h1.1, h1.2, h2.1, h2.2⟩
  · intro e me ne
    cases me <;> simp [Client.Update, Client.Rollback]

/-- Instance of `client_mutations_surface_final_failures`: a 500 answer to an
update is an error after exactly one request, and a rollback answered with 200
and success true returns nil. -/
theorem client_mutations_surface_final_failures_witness :
    ((Client.Update "1.3.0" none none
        (fun _ => .response 500 .absent "boom" (.error "EOF"))).sent =
        [Client.updateRequest "1.3.0"] ∧
      (Client.Update "1.3.0" none none
        (fun _ => .response 500 .absent "boom" (.error "EOF"))).err ≠ none) ∧
    (Client.Rollback none
      (fun _ => .response 200 .absent "ack"
        (.ok { Success := true, Message := "done" }))).err = none :=
  ⟨⟨((client_mutations_surface_final_failures "1.3.0"
        (fun _ => .response 500 .absent "boom" (.error "EOF"))
        (fun _ => .response 200 .absent "ack" (.ok { Success := true, Message := "done" }))).2.2.2.2.1
        500 .absent "boom" (.error "EOF") rfl (Or.inl (by decide))).1,
     ((client_mutations_surface_final_failures "1.3.0"
        (fun _ => .response 500 .absent "boom" (.error "EOF"))
        (fun _ => .response 200 .absent "ack" (.ok { Success := true, Message := "done" }))).2.2.2.2.1
        500 .absent "boom" (.error "EOF") rfl (Or.inl (by decide))).2 (Or.inl (by decide))⟩,
   ((client_mutations_surface_final_failures "1.3.0"
      (fun _ => .response 500 .absent "boom" (.error "EOF"))
      (fun _ => .response 200 .absent "ack" (.ok { Success := true, Message := "done" }))).2.2.2.1
      none).2 ⟨rfl, "ack", "done", rfl⟩⟩

/-- C14: for a `/versions` response with status 200 whose body decodes to
`resp`, `Client.CheckForUpdate` returns an error exactly when `resp.Versions`
is empty, and then no candidate and no list; otherwise it returns
`resp.Update` and `resp.Versions` as they are with a nil error, so an absent
candidate with a non-empty list comes back absent and without error. -/
theorem CheckForUpdate_decoded (body : String) (resp : VersionsResponse) :
    ((Client.CheckForUpdate (.response 200 body (.ok resp))).err ≠ none ↔
      resp.Versions = []) ∧
    (resp.Versions = [] →
      Client.CheckForUpdate (.response 200 body (.ok resp)) =
        { Update := none, Versions := [], err := some "no versions found in repository" }) ∧
    (resp.Versions ≠ [] →
      Client.CheckForUpdate (.response 200 body (.ok resp)) =
        { Update := resp.Update, Versions := resp.Versions, err := none }) ∧
    (resp.Versions ≠ [] → resp.Update = none →
      (Client.CheckForUpdate (.response 200 body (.ok resp))).Update = none ∧
      (Client.CheckForUpdate (.response 200 body (.ok resp))).err = none) := by
  obtain ⟨u, cur, vs⟩ := resp
  cases vs with
  | nil => simp [Client.CheckForUpdate, Client.versions, StatusOK]
  | cons v rest => simp [Client.CheckForUpdate, Client.versions, StatusOK]

/-- Instance of `CheckForUpdate_decoded`: an empty list, and the list with
only the current version 1.2.0 and no candidate. -/
theorem CheckForUpdate_decoded_witness :
    Client.CheckForUpdate
        (.response 200 "" (.ok { Update := none, Current := Version.zero, Versions := [] })) =
      { Update := none, Versions := [], err := some "no versions found in repository" } ∧
    (Client.CheckForUpdate
        (.response 200 ""
          (.ok { Update := none,
                 Current := { major := 1, minor := 2, patch := 0, pre := "", metadata := "",
                              original := "1.2.0" },
                 Versions := [{ major := 1, minor := 2, patch := 0, pre := "", metadata := "",
                                original := "1.2.0" }] }))).Update = none ∧
    (Client.CheckForUpdate
        (.response 200 ""
          (.ok { Update := none,
                 Current := { major := 1, minor := 2, patch := 0, pre := "", metadata := "",
                              original := "1.2.0" },
                 Versions := [{ major := 1, minor := 2, patch := 0, pre := "", metadata := "",
                                original := "1.2.0" }] }))).err = none :=
  ⟨(CheckForUpdate_decoded "" { Update := none, Current := Version.zero, Versions := [] }).2.1
      rfl,
   (CheckForUpdate_decoded ""
      { Update := none,
        Current := { major := 1, minor := 2, patch := 0, pre := "", metadata := "",
                     original := "1.2.0" },
        Versions := [{ major := 1, minor := 2, patch := 0, pre := "", metadata := "",
                       original := "1.2.0" }] }).2.2.2 (by decide) rfl⟩

/-! ## Loop invariant of `Supervisor.Run` -/

/-- The part of an iteration after the wait keeps `crashCount` between 0 and 2:
a count of 3 or 4 reached at line 56 is reset at line 66. -/
theorem handleExit_bounds (c : Int) (r : WaitResult) (rb : Bool) (h0 : 0 ≤ c) (h2 : c ≤ 2) :
    match handleExit c r rb with
    | .osExit _ c2 => 0 ≤ c2 ∧ c2 ≤ 2
    | .relaunch c2 _ => 0 ≤ c2 ∧ c2 ≤ 2 := by
  match r with
  | .nil => simp [handleExit, classify, countCrash, h0, h2]
  | .other => simp [handleExit, classify, countCrash, h0, h2]
  | .exitError none => simp [handleExit, classify, countCrash, h0, h2]
  | .exitError (some w) =>
    by_cases hs : WaitStatus.Signaled w = true
    · rw [handleExit_signaled w c rb hs]
      by_cases hc : c + 2 ≥ 3
      · simp [hc]
      · simp only [hc, if_false]
        constructor <;> omega
    · have hs2 : WaitStatus.Signaled w = false := by simpa using hs
      by_cases he : WaitStatus.ExitStatus w = 0
      · simp [handleExit, classify, countCrash, hs2, he, h0, h2]
      · by_cases hc : c + 1 ≥ 3
        · cases rb <;> simp [handleExit, classify, countCrash, thresholdCheck, hs2, he, hc]
        · have hc2 : ¬ (3 ≤ c + 1) := hc
          have e : handleExit c (.exitError (some w)) rb = .relaunch (c + 1) false := by
            simp [handleExit, classify, countCrash, thresholdCheck, hs2, he, hc2]
          rw [e]
          exact ⟨by omega, by omega⟩

/-- Every transition keeps `crashCount` between 0 and 2. -/
theorem step_bounds (s : Sup) (e : Event) (h : 0 ≤ s.crashCount ∧ s.crashCount ≤ 2) :
    0 ≤ (step s e).crashCount ∧ (step s e).crashCount ≤ 2 := by
  cases e with
  | tick =>
    cases hp : s.phase <;> simp [step, hp, h]
  | launch startErr =>
    cases hp : s.phase <;> cases startErr <;> cases ht : s.tickPending <;>
      simp [step, hp, selectReset, ht, h]
  | childExit r rb =>
    cases hp : s.phase with
    | waiting =>
      have hb := handleExit_bounds s.crashCount r rb h.1 h.2
      simp only [step, hp]
      cases hh : handleExit s.crashCount r rb with
      | osExit code c2 => rw [hh] at hb; simpa using hb
      | relaunch c2 b => rw [hh] at hb; simpa using hb
    | top => simp [step, hp, h]
    | exited code => simp [step, hp, h]
    | panicked => simp [step, hp, h]

/-- The bounds hold along every run. -/
theorem run_bounds (s : Sup) (es : List Event) (h : 0 ≤ s.crashCount ∧ s.crashCount ≤ 2) :
    0 ≤ (run s es).crashCount ∧ (run s es).crashCount ≤ 2 := by
  induction es generalizing s with
  | nil => simpa [run] using h
  | cons e rest ih =>
    have := ih (step s e) (step_bounds s e h)
    simpa [run] using this

/-- C13: along every sequence of ticks, launches and child exits (clean, with
a non-zero code, killed by a signal, or unclassified) and for every outcome of
`Rollback`, `crashCount` is between 0 and 2 in every state of the loop, in
particular right after the `select` of every iteration, when the worker is
launched. -/
theorem crashCount_bounds_at_launch (es : List Event) (startErr : Bool) :
    0 ≤ (run Sup.init es).crashCount ∧ (run Sup.init es).crashCount ≤ 2 ∧
    0 ≤ (run Sup.init (es ++ [.launch startErr])).crashCount ∧
    (run Sup.init (es ++ [.launch startErr])).crashCount ≤ 2 := by
  have hinit : 0 ≤ Sup.init.crashCount ∧ Sup.init.crashCount ≤ 2 := by decide
  have h1 := run_bounds Sup.init es hinit
  have h2 := run_bounds Sup.init (es ++ [.launch startErr]) hinit
  exact ⟨h1.1, h1.2, h2.1, h2.2⟩

end Knockknock
